import Mathlib

/-!
Shallow embedding of the qt-cap capture-session supervisor and its three
leaf crates, translated from the Rust sources:

  * `src/sidecars/qt-capture/src/main.rs`      — supervisor (`run`, `main`, IPC loop)
  * `src/crates/sys-display-hotplug/src/lib.rs` — `DisplayMonitor`, `DisplayWatcher`
  * `src/crates/sys-single-instance/src/lib.rs` — `InstanceLock`
  * `src/crates/sys-shutter-suppressor/src/lib.rs` — `AudioGuard`

Platform effects (OS file locks, subprocess execution, wall-clock time,
probe results) are made explicit parameters; the control flow of each
function is transcribed branch for branch.
-/

namespace QtCap

/-! ## Whitespace trimming (Rust `str::trim` on ASCII input)

`main.rs` line 65: `let trimmed = msg.trim();`.  Rust trims Unicode
White_Space characters from both ends; for the ASCII range relevant here
these are the six characters below.  Lines are modelled as `List Char`. -/

def isWs (c : Char) : Bool :=
  c = ' ' || c = '\t' || c = '\n' || c = '\r' || c = '\x0b' || c = '\x0c'

def trimChars (l : List Char) : List Char :=
  ((l.dropWhile isWs).reverse.dropWhile isWs).reverse

/-! ## IPC protocol loop (`main.rs` lines 57–103)

One iteration of `for line in reader.lines()` receives either
`Ok(msg)` (a line) or `Err(_)` (a read error); the iterator ending
models end-of-stream.  The loop carries the two mutable locals
`capture_success` and `capture_path`.  Besides the final `capture_path`
we also return how many items of the stream the loop consumed, so that
"ends the read loop immediately" is expressible. -/

inductive ReadEvent where
  | line (s : List Char)
  | readErr
  deriving DecidableEq, Repr

def reqMuteTok : List Char := "REQ_MUTE".toList

def successTok : List Char := "CAPTURE_SUCCESS".toList

def failTok : List Char := "CAPTURE_FAIL".toList

def ipcLoop : List ReadEvent → Bool → Option (List Char) → Option (List Char) × Nat
  | [], _, capture_path => (capture_path, 0)
  | ReadEvent.readErr :: _, _, capture_path => (capture_path, 1)
  | ReadEvent.line msg :: rest, capture_success, capture_path =>
    let trimmed := trimChars msg
    if trimmed = reqMuteTok then
      -- Already muted at startup - no-op kept for backwards compatibility
      let r := ipcLoop rest capture_success capture_path
      (r.1, r.2 + 1)
    else if trimmed = successTok then
      let r := ipcLoop rest true capture_path
      (r.1, r.2 + 1)
    else if trimmed = failTok then
      -- capture_success = false; break
      (capture_path, 1)
    else if trimmed.head? = some '/' ∧ capture_success = true then
      -- capture_path = Some(trimmed.to_string()); break
      (some trimmed, 1)
    else
      -- Passthrough Qt debug output
      let r := ipcLoop rest capture_success capture_path
      (r.1, r.2 + 1)

/-- Session outcome as the spec names it: `Success(path)` or `Failure`. -/
inductive Outcome where
  | success (path : List Char)
  | failure
  deriving DecidableEq, Repr

/-- Lines 94–100 of `main.rs`: `Some(path)` prints it and yields exit code 0,
`None` yields exit code 1. -/
def outcomeOf : Option (List Char) → Outcome
  | some path => Outcome.success path
  | none => Outcome.failure

/-! ## Display monitor (`sys-display-hotplug/src/lib.rs` lines 75–109)

`Instant` is modelled as absolute milliseconds (`Nat`); `elapsed` at a
call made at time `now` is `now - last_check` (the clock is monotone).
`get_monitor_count` is a platform probe: `check` performs at most two
probes per call, so the two potential probe results are passed as
explicit arguments `p1` (the immediate probe) and `p2` (the re-probe
taken after the 500 ms settle sleep); the third component of the result
counts how many probes the call actually performed. -/

structure DisplayMonitor where
  last_count : Int
  last_check : Nat
  deriving DecidableEq, Repr

def DisplayMonitor.check (m : DisplayMonitor) (now : Nat) (p1 p2 : Int) :
    Bool × DisplayMonitor × Nat :=
  -- Rate limit checks to 250ms
  if now - m.last_check < 250 then
    (false, m, 0)
  else
    let m1 : DisplayMonitor := { m with last_check := now }
    let current := p1
    if current ≠ m1.last_count then
      -- Debounce: confirm after 500ms
      let confirmed := p2
      if confirmed ≠ m1.last_count then
        (true, { m1 with last_count := confirmed }, 2)
      else
        (false, m1, 2)
    else
      (false, m1, 1)

/-! ## Display watcher handle (`sys-display-hotplug/src/lib.rs` lines 13–72)

The `Arc<AtomicBool>` running flag and the `Option<JoinHandle<()>>` are
the two fields; `stop` and the `Drop` impl act on them.  The second
component of `stop`'s result records whether `handle.join()` was
executed. -/

structure DisplayWatcher where
  running : Bool
  handle : Option Unit
  deriving DecidableEq, Repr

/-- Model of `DisplayWatcher::start`: spawns the thread, so the handle is present
and the running flag is true. -/
def DisplayWatcher.start : DisplayWatcher :=
  { running := true, handle := some () }

/-- Model of `DisplayWatcher::stop` (lines 59–64): store `false` to the running
flag, then `if let Some(handle) = self.handle.take() { let _ = handle.join(); }`. -/
def DisplayWatcher.stop (w : DisplayWatcher) : DisplayWatcher × Bool :=
  let w1 : DisplayWatcher := { w with running := false }
  match w1.handle with
  | some _ => ({ w1 with handle := none }, true)
  | none => (w1, false)

/-- The `Drop` impl (lines 67–72): store `false`; explicitly does not join. -/
def DisplayWatcher.dropImpl (w : DisplayWatcher) : DisplayWatcher :=
  { w with running := false }

/-! ## Instance lock (`sys-single-instance/src/lib.rs`)

The filesystem and the OS advisory-lock table are the explicit state:
`files` is the set of existing lock-file paths, `held` the set of paths
on which some process currently holds an exclusive OS lock.  Directory
resolution (`lock_dir`) is abstracted to a fixed directory (its failure
mode is orthogonal to the claims).  `try_acquire` (lines 33–52) opens
the file with `create(true)` — creating it even when the subsequent
`try_lock_exclusive` fails — and then attempts the non-blocking
exclusive lock, which fails iff the OS lock is already held. -/

inductive LockErr where
  | alreadyRunning
  deriving DecidableEq, Repr

structure FsState where
  files : List String
  held : List String
  deriving Repr

def lockPath (app_name : String) : String :=
  app_name ++ ".lock"

def InstanceLock.try_acquire (st : FsState) (app_name : String) :
    Except LockErr String × FsState :=
  let path := lockPath app_name
  -- fs::OpenOptions::new().read(true).write(true).create(true).open(&path)
  let st1 : FsState :=
    { st with files := if path ∈ st.files then st.files else path :: st.files }
  -- file.try_lock_exclusive() — fails immediately if locked by another process
  if path ∈ st1.held then
    (Except.error LockErr.alreadyRunning, st1)
  else
    (Except.ok path, { st1 with held := path :: st1.held })

/-- The `Drop` impl (lines 77–84): unlock the descriptor, then best-effort
remove the lock file. -/
def InstanceLock.dropImpl (st : FsState) (path : String) : FsState :=
  { files := (st.files).erase path, held := (st.held).erase path }

/-! ## Audio guard (`sys-shutter-suppressor/src/lib.rs`, Linux paths)

The environment fixes the session type, the cached utility-availability
flags (the `OnceLock` cells, computed once per process), and which of
the three control commands would fail to execute.  `Command::output()`
returning `Err` is modelled by `execCmd`; every call site binds the
result to `_`, which `swallow` transcribes.  `mute`/`unmute` return
`Except` so that "never raises an error visible to the caller" is a
statement about the returned value. -/

structure AudioEnv where
  sessionType : Option String
  hasWpctl : Bool
  hasPactl : Bool
  wpctlFails : Bool
  pactlFails : Bool
  amixerFails : Bool

def asciiLower (c : Char) : Char :=
  if 'A' ≤ c ∧ c ≤ 'Z' then Char.ofNat (c.toNat + 32) else c

/-- Rust `eq_ignore_ascii_case` on the two strings, as lists of chars. -/
def eqIgnoreAsciiCase (a b : List Char) : Bool :=
  a.map asciiLower = b.map asciiLower

/-- Model of `AudioGuard::is_wayland` (lines 106–110). -/
def AudioGuard.is_wayland (env : AudioEnv) : Bool :=
  match env.sessionType with
  | some v => eqIgnoreAsciiCase v.toList "wayland".toList
  | none => false

/-- Result of one `Command::output()` invocation. -/
def execCmd (fails : Bool) : Except Unit Unit :=
  if fails then Except.error () else Except.ok ()

/-- Transcription of `let _ = …`: the command result is discarded, never propagated. -/
def swallow (r : Except Unit Unit) : Except Unit Unit :=
  match r with
  | _ => Except.ok ()

/-- Model of `AudioGuard::mute_linux` (lines 68–85).  The returned list records
which utility was invoked. -/
def AudioGuard.mute_linux (env : AudioEnv) : Except Unit Unit × List String :=
  if env.hasWpctl then
    (swallow (execCmd env.wpctlFails), ["wpctl"])
  else if env.hasPactl then
    (swallow (execCmd env.pactlFails), ["pactl"])
  else
    (swallow (execCmd env.amixerFails), ["amixer"])

/-- Model of `AudioGuard::unmute_linux` (lines 88–102). -/
def AudioGuard.unmute_linux (env : AudioEnv) : Except Unit Unit × List String :=
  if env.hasWpctl then
    (swallow (execCmd env.wpctlFails), ["wpctl"])
  else if env.hasPactl then
    (swallow (execCmd env.pactlFails), ["pactl"])
  else
    (swallow (execCmd env.amixerFails), ["amixer"])

/-- Model of `AudioGuard::mute` (lines 22–31), Linux branch: act only under Wayland. -/
def AudioGuard.mute (env : AudioEnv) : Except Unit Unit :=
  if AudioGuard.is_wayland env then (AudioGuard.mute_linux env).1 else Except.ok ()

/-- Model of `AudioGuard::unmute` (lines 35–44), Linux branch. -/
def AudioGuard.unmute (env : AudioEnv) : Except Unit Unit :=
  if AudioGuard.is_wayland env then (AudioGuard.unmute_linux env).1 else Except.ok ()

/-! ## Capture session supervisor (`main.rs` lines 24–111)

The environment fixes the outcome of each fallible platform step:
whether `InstanceLock::try_acquire` succeeds, whether `spawn_qt_child`
succeeds, whether `child.stdout.take()` yields `Some`, and the stream of
line-read events the `BufReader` produces (a watcher-triggered kill of
the child appears to the reader as the stream simply ending, so it is a
particular `events` value).  The `Effects` trace records, at the moment
`run`/`main` returns, which side-effecting operations were executed. -/

inductive RunError where
  | alreadyRunning
  | spawnFailed
  deriving DecidableEq, Repr

structure RunEnv where
  lockFree : Bool
  spawnOk : Bool
  stdoutPiped : Bool
  events : List ReadEvent
  deriving Repr

structure Effects where
  muteCalls : Nat
  unmuteCalls : Nat
  lockAcquired : Bool
  lockReleased : Bool
  watcherStarted : Bool
  watcherJoined : Bool
  childWaited : Bool
  deriving DecidableEq, Repr

def Effects.none : Effects :=
  { muteCalls := 0, unmuteCalls := 0, lockAcquired := false, lockReleased := false,
    watcherStarted := false, watcherJoined := false, childWaited := false }

/-- Model of `run()` (`main.rs` lines 35–111), transcribed step by step.

1. `InstanceLock::try_acquire("qt-capture")?` — on contention the `?`
   returns the error before anything else happened.
2. `AudioGuard::mute()`.
3. `spawn_qt_child(&args)?` — on failure the `?` returns early; the
   `_lock` guard drops on that scope exit, releasing the lock.
4. `DisplayWatcher::start(…)`.
5. the IPC loop, or exit code 1 when `child.stdout.take()` is `None`;
   then `watcher.stop()` (which joins, see `DisplayWatcher.stop`),
   `child.wait()`, `AudioGuard::unmute()`, and the `_lock` drop at the
   end of scope. -/
def run (env : RunEnv) : Except RunError Nat × Effects :=
  -- 1. Acquire single instance lock
  if ¬ env.lockFree then
    (Except.error RunError.alreadyRunning, Effects.none)
  else
    -- 2. Mute audio BEFORE spawning Qt
    -- 3. Spawn Qt child process
    if ¬ env.spawnOk then
      (Except.error RunError.spawnFailed,
        { Effects.none with muteCalls := 1, lockAcquired := true, lockReleased := true })
    else
      -- 4. Start display hotplug monitor (background thread)
      -- 5. IPC loop - read Qt stdout
      let exit_code : Nat :=
        if env.stdoutPiped then
          match (ipcLoop env.events false Option.none).1 with
          | some _ => 0
          | none => 1
        else
          1
      -- 5. Cleanup: watcher.stop(); child.wait(); AudioGuard::unmute(); drop(_lock)
      (Except.ok exit_code,
        { muteCalls := 1, unmuteCalls := 1, lockAcquired := true, lockReleased := true,
          watcherStarted := true, watcherJoined := true, childWaited := true })

/-- Model of `main()` (`main.rs` lines 24–33): on `Err`, print the error, perform
the safety `AudioGuard::unmute()`, and exit with code 1. -/
def mainFn (env : RunEnv) : Nat × Effects :=
  match run env with
  | (Except.ok code, eff) => (code, eff)
  | (Except.error _, eff) => (1, { eff with unmuteCalls := eff.unmuteCalls + 1 })

/-- The session outcome `run` produces on a given stream: the loop's
recorded `capture_path` interpreted as `Success`/`Failure`. -/
def sessionOutcome (events : List ReadEvent) : Outcome :=
  outcomeOf (ipcLoop events false Option.none).1

/-- A character list with no whitespace at either end. -/
def noEdgeWs (p : List Char) : Bool :=
  (match p.head? with | some c => !isWs c | none => true) &&
  (match p.getLast? with | some c => !isWs c | none => true)

/-! ## Helper lemmas about `trimChars` -/

theorem head?_dropWhile_false (p : Char → Bool) :
    ∀ (l : List Char) (c : Char), (l.dropWhile p).head? = some c → p c = false := by
  intro l
  induction l with
  | nil => intro c h; simp [List.dropWhile] at h
  | cons a t ih =>
    intro c h
    by_cases hp : p a
    · rw [List.dropWhile_cons_of_pos hp] at h
      exact ih c h
    · rw [List.dropWhile_cons_of_neg hp] at h
      simp only [List.head?_cons, Option.some.injEq] at h
      subst h
      simpa using hp

theorem getLast?_dropWhile_of_ne_nil (p : Char → Bool) :
    ∀ (l : List Char), l.dropWhile p ≠ [] → (l.dropWhile p).getLast? = l.getLast? := by
  intro l
  induction l with
  | nil => intro h; simp [List.dropWhile] at h
  | cons a t ih =>
    intro h
    by_cases hp : p a
    · rw [List.dropWhile_cons_of_pos hp] at h ⊢
      rw [ih h]
      match t, h with
      | b :: t2, _ => exact (List.getLast?_cons_cons).symm
    · rw [List.dropWhile_cons_of_neg hp]

theorem trimChars_getLast?_not_ws (l : List Char) (c : Char)
    (h : (trimChars l).getLast? = some c) : isWs c = false := by
  unfold trimChars at h
  rw [List.getLast?_reverse] at h
  exact head?_dropWhile_false isWs _ c h

theorem trimChars_head?_not_ws (l : List Char) (c : Char)
    (h : (trimChars l).head? = some c) : isWs c = false := by
  unfold trimChars at h
  rw [List.head?_reverse] at h
  have hne : ((l.dropWhile isWs).reverse.dropWhile isWs) ≠ [] := by
    intro he
    rw [he] at h
    simp at h
  rw [getLast?_dropWhile_of_ne_nil isWs _ hne, List.getLast?_reverse] at h
  exact head?_dropWhile_false isWs l c h

theorem noEdgeWs_trimChars (l : List Char) : noEdgeWs (trimChars l) = true := by
  unfold noEdgeWs
  rw [Bool.and_eq_true]
  constructor
  · cases hh : (trimChars l).head? with
    | none => rfl
    | some c => simp [trimChars_head?_not_ws l c hh]
  · cases hh : (trimChars l).getLast? with
    | none => rfl
    | some c => simp [trimChars_getLast?_not_ws l c hh]

/-! ## Claims about `DisplayMonitor.check` -/

/-- Claim C8: when `check` is called again less than 250 ms after the previous
check, it returns `false` immediately, performs no probe, and leaves the
monitor state entirely unchanged, regardless of what the probes would
have reported. -/
theorem check_rate_limited (m : DisplayMonitor) (now : Nat) (p1 p2 : Int)
    (h : now - m.last_check < 250) :
    DisplayMonitor.check m now p1 p2 = (false, m, 0) := by
  unfold DisplayMonitor.check
  simp [h]

theorem check_rate_limited_witness :
    DisplayMonitor.check ⟨1, 0⟩ 100 5 5 = (false, ⟨1, 0⟩, 0) :=
  check_rate_limited ⟨1, 0⟩ 100 5 5 (by decide)

/-- Claim C7: a transient discrepancy — the first probe differs from the
confirmed count but the settle-delay re-probe equals it again — makes
`check` return `false` and leaves all monitor state unchanged except the
last-check timestamp. -/
theorem check_transient_glitch (m : DisplayMonitor) (now : Nat) (p1 p2 : Int)
    (hrl : ¬ now - m.last_check < 250) (h1 : p1 ≠ m.last_count)
    (h2 : p2 = m.last_count) :
    DisplayMonitor.check m now p1 p2 =
      (false, { last_count := m.last_count, last_check := now }, 2) := by
  unfold DisplayMonitor.check
  simp [hrl, h1, h2]

theorem check_transient_glitch_witness :
    DisplayMonitor.check ⟨1, 0⟩ 300 2 1 = (false, ⟨1, 300⟩, 2) :=
  check_transient_glitch ⟨1, 0⟩ 300 2 1 (by decide) (by decide) (by decide)

/-- Claim C2, counterexample: with confirmed count 1, a first probe of 2 and a
settle re-probe of 3, `check` reports a confirmed change and sets the
confirmed count to 3 — a value different from the raw count 2 observed
in the first probe of that check. -/
theorem check_confirms_reprobe_counterexample :
    (DisplayMonitor.check ⟨1, 0⟩ 300 2 3).1 = true ∧
    ((DisplayMonitor.check ⟨1, 0⟩ 300 2 3).2.1).last_count = 3 ∧ (3 : Int) ≠ 2 := by
  decide

/-- Claim C2, amended: the confirmed count only changes after the two-stage
confirmation — the rate limit has elapsed, the first raw probe differs
from the confirmed count, and the settle-delay re-probe also differs
from the confirmed count — and the new confirmed value is the re-probed
value (which may differ from the first probe's raw value). -/
theorem check_confirmed_update (m : DisplayMonitor) (now : Nat) (p1 p2 : Int)
    (h : (DisplayMonitor.check m now p1 p2).2.1.last_count ≠ m.last_count) :
    250 ≤ now - m.last_check ∧ p1 ≠ m.last_count ∧ p2 ≠ m.last_count ∧
    (DisplayMonitor.check m now p1 p2).2.1.last_count = p2 ∧
    (DisplayMonitor.check m now p1 p2).1 = true := by
  unfold DisplayMonitor.check at h ⊢
  by_cases hrl : now - m.last_check < 250
  · simp [hrl] at h
  · by_cases h1 : p1 = m.last_count
    · simp [hrl, h1] at h
    · by_cases h2 : p2 = m.last_count
      · simp [hrl, h1, h2] at h
      · simp [hrl, h1, h2]
        exact Nat.le_of_not_lt hrl

theorem check_confirmed_update_witness :
    250 ≤ 300 - 0 ∧ (2 : Int) ≠ 1 ∧ (3 : Int) ≠ 1 ∧
    (DisplayMonitor.check ⟨1, 0⟩ 300 2 3).2.1.last_count = 3 ∧
    (DisplayMonitor.check ⟨1, 0⟩ 300 2 3).1 = true :=
  check_confirmed_update ⟨1, 0⟩ 300 2 3 (by decide)

/-! ## Claims about the watcher teardown -/

/-- Claim C3, counterexample: stopping a freshly started watcher does join the
thread (`stop` runs `handle.join()`), and the supervisor's teardown path
(`run`, step 5) records the join — refuting "the watcher thread is
never joined synchronously during supervisor teardown". -/
theorem stop_joins_counterexample :
    (DisplayWatcher.start.stop).2 = true ∧
    (run { lockFree := true, spawnOk := true, stdoutPiped := true,
           events := [] }).2.watcherJoined = true := by
  decide

/-- Claim C3, amended: `DisplayWatcher::stop` clears the running flag and then
synchronously joins the watcher thread whenever a join handle is
present; it is the `Drop` impl, not `stop`, that only clears the flag
without joining; and every supervisor teardown (lock acquired, child
spawned) reaches the join. -/
theorem watcher_stop_joins (w : DisplayWatcher) (env : RunEnv)
    (hl : env.lockFree = true) (hs : env.spawnOk = true) :
    (w.stop).1.running = false ∧ ((w.stop).2 = true ↔ w.handle.isSome = true) ∧
    (w.dropImpl).running = false ∧ (run env).2.watcherJoined = true := by
  refine ⟨?_, ?_, rfl, ?_⟩
  · unfold DisplayWatcher.stop
    cases w.handle <;> rfl
  · unfold DisplayWatcher.stop
    cases w.handle <;> simp
  · unfold run
    simp [hl, hs]

theorem watcher_stop_joins_witness :
    (DisplayWatcher.start.stop).1.running = false ∧
    ((DisplayWatcher.start.stop).2 = true ↔ DisplayWatcher.start.handle.isSome = true) ∧
    (DisplayWatcher.start.dropImpl).running = false ∧
    (run { lockFree := true, spawnOk := true, stdoutPiped := true,
           events := [ReadEvent.readErr] }).2.watcherJoined = true :=
  watcher_stop_joins DisplayWatcher.start
    { lockFree := true, spawnOk := true, stdoutPiped := true,
      events := [ReadEvent.readErr] } (by decide) (by decide)

/-! ## Claims about the IPC protocol loop -/

/-- Claim C4: whenever the loop meets a `CAPTURE_SUCCESS` line followed by a
line whose trimmed form begins with `/` (whatever the current
`capture_success` flag and whatever follows on the stream), it does not
stop at the `CAPTURE_SUCCESS` line: it consumes exactly those two lines,
records the trimmed path line as the artifact path, and stops there; and
in particular the stream `CAPTURE_SUCCESS\n/tmp/out.png\n` yields the
session outcome `Success("/tmp/out.png")`. -/
theorem success_then_path (rest : List ReadEvent) (b : Bool) (s p : List Char)
    (hs : trimChars s = successTok) (hp : (trimChars p).head? = some '/') :
    ipcLoop (ReadEvent.line s :: ReadEvent.line p :: rest) b Option.none =
      (some (trimChars p), 2) ∧
    sessionOutcome [ReadEvent.line "CAPTURE_SUCCESS".toList,
                    ReadEvent.line "/tmp/out.png".toList] =
      Outcome.success "/tmp/out.png".toList := by
  have hne1 : trimChars p ≠ reqMuteTok := by
    intro he; rw [he] at hp; exact absurd hp (by decide)
  have hne2 : trimChars p ≠ successTok := by
    intro he; rw [he] at hp; exact absurd hp (by decide)
  have hne3 : trimChars p ≠ failTok := by
    intro he; rw [he] at hp; exact absurd hp (by decide)
  constructor
  · show ipcLoop (ReadEvent.line s :: ReadEvent.line p :: rest) b Option.none = _
    unfold ipcLoop
    rw [hs]
    have hst : successTok ≠ reqMuteTok := by decide
    simp only [if_neg hst, if_pos rfl]
    unfold ipcLoop
    rw [if_neg hne1, if_neg hne2, if_neg hne3,
      if_pos (show (trimChars p).head? = some '/' ∧ true = true from ⟨hp, rfl⟩)]
    simp
  · decide

theorem success_then_path_witness :
    ipcLoop [ReadEvent.line "CAPTURE_SUCCESS".toList,
             ReadEvent.line "/tmp/out.png".toList] false Option.none =
      (some (trimChars "/tmp/out.png".toList), 2) ∧
    sessionOutcome [ReadEvent.line "CAPTURE_SUCCESS".toList,
                    ReadEvent.line "/tmp/out.png".toList] =
      Outcome.success "/tmp/out.png".toList :=
  success_then_path [] false "CAPTURE_SUCCESS".toList "/tmp/out.png".toList
    (by decide) (by decide)

/-- Claim C5: a `CAPTURE_FAIL` line ends the read loop immediately — exactly
one line consumed, whatever the current flag and whatever follows — with
no artifact path; a read error likewise ends the loop at once, and end
of stream ends it; and whenever the loop finishes with no recorded path
the session outcome is `Failure`. -/
theorem fail_or_stream_end_is_failure (rest events : List ReadEvent) (b b2 b3 : Bool)
    (f : List Char) (hf : trimChars f = failTok)
    (hnone : (ipcLoop events false Option.none).1 = Option.none) :
    ipcLoop (ReadEvent.line f :: rest) b Option.none = (Option.none, 1) ∧
    ipcLoop (ReadEvent.readErr :: rest) b2 Option.none = (Option.none, 1) ∧
    ipcLoop [] b3 Option.none = (Option.none, 0) ∧
    sessionOutcome events = Outcome.failure := by
  refine ⟨?_, rfl, rfl, ?_⟩
  · unfold ipcLoop
    rw [hf]
    have h1 : failTok ≠ reqMuteTok := by decide
    have h2 : failTok ≠ successTok := by decide
    rw [if_neg h1, if_neg h2, if_pos rfl]
  · unfold sessionOutcome
    rw [hnone]
    rfl

theorem fail_or_stream_end_is_failure_witness :
    ipcLoop [ReadEvent.line "CAPTURE_FAIL".toList] true Option.none =
      (Option.none, 1) ∧
    ipcLoop [ReadEvent.readErr] true Option.none = (Option.none, 1) ∧
    ipcLoop [] false Option.none = (Option.none, 0) ∧
    sessionOutcome [ReadEvent.line "CAPTURE_SUCCESS".toList] = Outcome.failure :=
  fail_or_stream_end_is_failure [] [ReadEvent.line "CAPTURE_SUCCESS".toList]
    true true false "CAPTURE_FAIL".toList (by decide) (by decide)

theorem ipcLoop_path_noEdgeWs :
    ∀ (events : List ReadEvent) (b : Bool) (acc : Option (List Char)),
      (∀ q, acc = some q → noEdgeWs q = true) →
      ∀ p, (ipcLoop events b acc).1 = some p → noEdgeWs p = true := by
  intro events
  induction events with
  | nil => intro b acc hacc p hp; exact hacc p hp
  | cons ev rest ih =>
    intro b acc hacc p hp
    cases ev with
    | readErr => exact hacc p hp
    | line s =>
      unfold ipcLoop at hp
      by_cases h1 : trimChars s = reqMuteTok
      · rw [if_pos h1] at hp
        exact ih b acc hacc p hp
      · rw [if_neg h1] at hp
        by_cases h2 : trimChars s = successTok
        · rw [if_pos h2] at hp
          exact ih true acc hacc p hp
        · rw [if_neg h2] at hp
          by_cases h3 : trimChars s = failTok
          · rw [if_pos h3] at hp
            exact hacc p hp
          · rw [if_neg h3] at hp
            by_cases h4 : (trimChars s).head? = some '/' ∧ b = true
            · rw [if_pos h4] at hp
              have hps : some (trimChars s) = some p := hp
              have : trimChars s = p := Option.some.inj hps
              rw [← this]
              exact noEdgeWs_trimChars s
            · rw [if_neg h4] at hp
              exact ih b acc hacc p hp

/-- Claim C10: every line is trimmed before interpretation — a recorded
artifact path never carries leading or trailing whitespace (for any
stream); a `CAPTURE_SUCCESS` token surrounded by spaces and a carriage
return is still recognized, a path line with surrounding whitespace is
still recognized as starting with `/` and is recorded trimmed; and a
`CAPTURE_FAIL` token with surrounding whitespace still ends the loop
immediately. -/
theorem lines_trimmed_before_interpretation :
    (∀ (events : List ReadEvent) (p : List Char),
        (ipcLoop events false Option.none).1 = some p → noEdgeWs p = true) ∧
    sessionOutcome [ReadEvent.line " CAPTURE_SUCCESS \r".toList,
                    ReadEvent.line "  /tmp/out.png  ".toList] =
      Outcome.success "/tmp/out.png".toList ∧
    ipcLoop [ReadEvent.line " CAPTURE_FAIL\r".toList, ReadEvent.line "x".toList]
        true Option.none = (Option.none, 1) := by
  refine ⟨?_, by decide, by decide⟩
  intro events p hp
  exact ipcLoop_path_noEdgeWs events false Option.none
    (fun q hq => Option.noConfusion hq) p hp

theorem lines_trimmed_witness :
    noEdgeWs "/tmp/out.png".toList = true :=
  lines_trimmed_before_interpretation.1
    [ReadEvent.line "CAPTURE_SUCCESS".toList,
     ReadEvent.line " /tmp/out.png ".toList]
    "/tmp/out.png".toList (by decide)

/-! ## Claim about supervisor cleanup (C1) -/

/-- Claim C1: on every exit path of a session run — normal success, capture
failure, stream read error, spawn failure, lock contention, and
watcher-triggered kill (which the reader observes as the stream closing
early) — if audio was muted during the run it is unmuted before control
returns to the caller, and if the instance lock was acquired it is
released before process exit. -/
theorem cleanup_on_every_exit_path (env : RunEnv) :
    (0 < (mainFn env).2.muteCalls → 0 < (mainFn env).2.unmuteCalls) ∧
    ((mainFn env).2.lockAcquired = true → (mainFn env).2.lockReleased = true) := by
  unfold mainFn run
  by_cases hl : env.lockFree = true
  · by_cases hs : env.spawnOk = true
    · simp [hl, hs]
    · simp [hl, hs]
  · simp [hl, Effects.none]

theorem cleanup_on_every_exit_path_witness :
    0 < (mainFn { lockFree := true, spawnOk := true, stdoutPiped := true,
                  events := [ReadEvent.line "CAPTURE_FAIL".toList] }).2.unmuteCalls ∧
    (mainFn { lockFree := true, spawnOk := true, stdoutPiped := true,
              events := [ReadEvent.line "CAPTURE_FAIL".toList] }).2.lockReleased = true :=
  ⟨(cleanup_on_every_exit_path
      { lockFree := true, spawnOk := true, stdoutPiped := true,
        events := [ReadEvent.line "CAPTURE_FAIL".toList] }).1 (by decide),
   (cleanup_on_every_exit_path
      { lockFree := true, spawnOk := true, stdoutPiped := true,
        events := [ReadEvent.line "CAPTURE_FAIL".toList] }).2 (by decide)⟩

/-! ## Claim about the instance lock (C6) -/

/-- Claim C6: after any acquisition attempt on a state, a second attempt with
the same application name fails with `AlreadyRunning` (so of two
attempts at most one succeeds, and the loser fails on the spot rather
than blocking: its result is immediate and it leaves the OS lock table
untouched); and a stale lock file with no active OS lock does not
prevent a fresh acquisition from succeeding. -/
theorem single_instance_exclusion (st stHeld stStale : FsState) (app : String)
    (hheld : lockPath app ∈ stHeld.held)
    (hstale : lockPath app ∈ stStale.files) (hfree : lockPath app ∉ stStale.held) :
    (InstanceLock.try_acquire (InstanceLock.try_acquire st app).2 app).1 =
      Except.error LockErr.alreadyRunning ∧
    (InstanceLock.try_acquire stHeld app).1 = Except.error LockErr.alreadyRunning ∧
    (InstanceLock.try_acquire stHeld app).2.held = stHeld.held ∧
    (InstanceLock.try_acquire stStale app).1 = Except.ok (lockPath app) := by
  refine ⟨?_, ?_, ?_, ?_⟩
  · unfold InstanceLock.try_acquire
    by_cases h : lockPath app ∈ st.held
    · rw [if_pos h, if_pos h]
    · rw [if_neg h]
      rw [if_pos (List.mem_cons_self (lockPath app) st.held)]
  · unfold InstanceLock.try_acquire
    rw [if_pos hheld]
  · unfold InstanceLock.try_acquire
    rw [if_pos hheld]
  · unfold InstanceLock.try_acquire
    rw [if_neg hfree]

theorem single_instance_exclusion_witness :
    (InstanceLock.try_acquire
        (InstanceLock.try_acquire ⟨[], []⟩ "qt-capture").2 "qt-capture").1 =
      Except.error LockErr.alreadyRunning ∧
    (InstanceLock.try_acquire ⟨["qt-capture.lock"], ["qt-capture.lock"]⟩
        "qt-capture").1 = Except.error LockErr.alreadyRunning ∧
    (InstanceLock.try_acquire ⟨["qt-capture.lock"], ["qt-capture.lock"]⟩
        "qt-capture").2.held = ["qt-capture.lock"] ∧
    (InstanceLock.try_acquire ⟨["qt-capture.lock"], []⟩ "qt-capture").1 =
      Except.ok (lockPath "qt-capture") :=
  single_instance_exclusion ⟨[], []⟩ ⟨["qt-capture.lock"], ["qt-capture.lock"]⟩
    ⟨["qt-capture.lock"], []⟩ "qt-capture" (by decide) (by decide) (by decide)

/-! ## Claim about the audio guard (C9) -/

theorem swallow_ok (r : Except Unit Unit) : swallow r = Except.ok () := by
  cases r <;> rfl

/-- Claim C9: for every system configuration — any session type, any cached
availability of `wpctl`/`pactl`, any pattern of command execution
failures (including none of the control utilities being present) —
`mute()` and `unmute()` return normally: no underlying command failure
is ever surfaced to the caller, so `mute()` immediately followed by
`unmute()` returns normally. -/
theorem mute_unmute_never_error (env : AudioEnv) :
    AudioGuard.mute env = Except.ok () ∧ AudioGuard.unmute env = Except.ok () ∧
    (AudioGuard.mute_linux env).1 = Except.ok () ∧
    (AudioGuard.unmute_linux env).1 = Except.ok () := by
  have hm : (AudioGuard.mute_linux env).1 = Except.ok () := by
    unfold AudioGuard.mute_linux
    by_cases h1 : env.hasWpctl = true <;> by_cases h2 : env.hasPactl = true <;>
      simp [h1, h2, swallow_ok]
  have hu : (AudioGuard.unmute_linux env).1 = Except.ok () := by
    unfold AudioGuard.unmute_linux
    by_cases h1 : env.hasWpctl = true <;> by_cases h2 : env.hasPactl = true <;>
      simp [h1, h2, swallow_ok]
  refine ⟨?_, ?_, hm, hu⟩
  · unfold AudioGuard.mute
    by_cases hw : AudioGuard.is_wayland env = true <;> simp [hw, hm]
  · unfold AudioGuard.unmute
    by_cases hw : AudioGuard.is_wayland env = true <;> simp [hw, hu]

end QtCap
